import Mathlib

/-!
# Verification of the iq-option-bot-api trading platform

This file shallowly embeds the parts of the repository needed to settle the
frozen claims: the risk manager, the LLM gateway's provider selection, the
RSI indicator, the chart-data cache, the trade-execution endpoint validation,
the trading agent's new-day reset, the benchmark percentile helper, the
manifest loader, the component registry, and the brokerage service facade.

Python floats are modelled as rationals (`ℚ`); datetimes as integer seconds;
fallible code as `Option`/`Except`.  Every definition is translated from the
corresponding source function; deviations (e.g. pydantic's permissive type
coercion modelled strictly) are noted in doc comments.
-/

namespace IqBot

/-! ## Risk manager (src/services/trading-bot/src/core/trading/service.py) -/

/-- State of `RiskManager.__init__`: a running daily P&L accumulator, the
daily loss limit (`settings.max_daily_risk`) and the per-trade amount limit
(`settings.default_risk_per_trade`). -/
structure RiskManager where
  daily_pnl : ℚ
  daily_loss_limit : ℚ
  trade_risk_limit : ℚ

/-- `RiskManager.validate_trade` (service.py lines 79-97): a trade is
rejected when the daily P&L has breached (≤ negative of) the daily loss
limit, or when the requested amount exceeds the per-trade risk limit;
otherwise accepted.  Only `trade_request.amount` is inspected. -/
def RiskManager.validate_trade (rm : RiskManager) (amount : ℚ) : Bool :=
  if rm.daily_pnl ≤ -rm.daily_loss_limit then
    false
  else if amount > rm.trade_risk_limit then
    false
  else
    true

/-! ## Trading agent new-day check
(src/services/trading-bot/src/core/trading_agent.py) -/

/-- The daily-counter slice of `TradingAgent` state: `daily_trades`,
`daily_losses`, and `last_trade_date` (a calendar date, `none` before any
trade; dates modelled as integers ordered chronologically). -/
structure AgentCounters where
  daily_trades : ℕ
  daily_losses : ℕ
  last_trade_date : Option ℤ
  deriving DecidableEq, Repr

/-- `TradingAgent._check_new_day` (trading_agent.py lines 191-198):
if `last_trade_date != today`, zero both daily counters and set
`last_trade_date` to today; otherwise leave the state untouched. -/
def check_new_day (today : ℤ) (s : AgentCounters) : AgentCounters :=
  if s.last_trade_date ≠ some today then
    { daily_trades := 0, daily_losses := 0, last_trade_date := some today }
  else
    s

/-! ## LLM gateway provider selection
(src/services/llm_gateway/api_gateway.py) -/

/-- The provider registry as seen by `get_completion`: each registered
provider name paired with the result of its `is_available()` probe. -/
def availableProviders (registry : List (String × Bool)) : List String :=
  (registry.filter (fun p => p.2)).map (fun p => p.1)

/-- `random.choice(available_providers)`: selects the element at a
uniformly-drawn index.  The random draw is exposed as the parameter `r`;
for a non-empty list every `r` yields a member of the list. -/
def randomChoice (l : List String) (r : ℕ) : String :=
  l.getD (r % l.length) ""

/-- The provider-resolution logic of `get_completion` (api_gateway.py lines
67-92): compute the available set; 503 when it is empty; use the requested
provider when it is in the available set, else `random.choice` over the
available set.  (`request.provider` may be absent, in which case the Python
membership test `None in available_providers` is false.)  The `Except`
error value is the HTTP status code raised. -/
def resolveProvider (registry : List (String × Bool)) (requested : Option String)
    (r : ℕ) : Except ℕ String :=
  let avail := availableProviders registry
  if avail.isEmpty then
    .error 503
  else
    match requested with
    | some p => if p ∈ avail then .ok p else .ok (randomChoice avail r)
    | none => .ok (randomChoice avail r)

/-! ## RSI indicator (src/services/trading-bot/src/core/manifests.py,
`RSIIndicator.calculate`, lines 231-263) -/

/-- One RSI emission: `rsi = 100` when the smoothed average loss is zero,
else `100 - 100/(1 + rs)` with `rs = avg_gain / avg_loss`. -/
def rsiStep (avgGain avgLoss : ℚ) : ℚ :=
  if avgLoss = 0 then 100 else 100 - 100 / (1 + avgGain / avgLoss)

/-- The `for i in range(period, len(gains))` loop of `RSIIndicator.calculate`:
Wilder smoothing `avg = (avg*(period-1) + new)/period` on both averages,
emitting one RSI value per step.  `pairs` carries `(gains[i], losses[i])`. -/
def rsiLoop (period : ℕ) : List (ℚ × ℚ) → ℚ → ℚ → List ℚ
  | [], _, _ => []
  | (g, l) :: rest, avgGain, avgLoss =>
    let avgGain' := (avgGain * ((period : ℚ) - 1) + g) / (period : ℚ)
    let avgLoss' := (avgLoss * ((period : ℚ) - 1) + l) / (period : ℚ)
    rsiStep avgGain' avgLoss' :: rsiLoop period rest avgGain' avgLoss'

/-- `RSIIndicator.calculate` on the close-price series (the `"rsi"` output
list).  Deltas between consecutive closes; `gains = max(delta, 0)`,
`losses = abs(min(delta, 0))`; seed averages are simple means of the first
`period` gains/losses; then the smoothing loop. -/
def RSIIndicator.calculate (period : ℕ) (data : List ℚ) : List ℚ :=
  if data.length < period + 1 then []
  else
    let deltas := (data.tail.zip data).map (fun p => p.1 - p.2)
    let gains := deltas.map (fun d => max d 0)
    let losses := deltas.map (fun d => |min d 0|)
    let avgGain := (gains.take period).sum / (period : ℚ)
    let avgLoss := (losses.take period).sum / (period : ℚ)
    rsiLoop period ((gains.drop period).zip (losses.drop period)) avgGain avgLoss

/-! ## Chart data service
(src/services/trading-bot/src/integrations/chart_data.py) -/

/-- A price candle.  Python field names `open`/`high`/`low`/`close` are
rendered `openP`/`highP`/`lowP`/`closeP` (`open` is a Lean keyword);
timestamps are integer seconds. -/
structure Candle where
  openP : ℚ
  highP : ℚ
  lowP : ℚ
  closeP : ℚ
  volume : ℚ
  timestamp : ℤ
  deriving DecidableEq, Repr

/-- `ChartData`: a cache entry for one (asset, timeframe) pair. -/
structure ChartData where
  asset : String
  timeframe : String
  candles : List Candle
  last_update : ℤ
  deriving DecidableEq, Repr

/-- `ChartDataService.supported_assets` (chart_data.py lines 69-76). -/
def supportedAssets : List String :=
  ["EURUSD", "GBPUSD", "USDJPY", "USDCHF", "USDCAD", "AUDUSD", "NZDUSD",
   "EURJPY", "EURGBP", "EURCHF", "GBPJPY", "GBPCHF", "AUDJPY", "NZDJPY",
   "BTCUSD", "ETHUSD", "LTCUSD", "XRPUSD", "ADAUSD", "DOTUSD",
   "GOOGL", "AAPL", "MSFT", "AMZN", "TSLA", "NVDA", "META",
   "GOLD", "SILVER", "OIL", "GAS",
   "SPX500", "NDQ100", "DAX30", "FTSE100", "NIKKEI225"]

/-- The `Timeframe` enum member names (M1 … D1). -/
def timeframeNames : List String := ["M1", "M5", "M15", "M30", "H1", "H4", "D1"]

/-- The service's in-memory cache `self.cache`, a dict keyed by
`f"{asset}_{timeframe}"`. -/
abbrev ChartCache := List (String × ChartData)

/-- Dict lookup (first matching key). -/
def cacheLookup (c : ChartCache) (k : String) : Option ChartData :=
  match c with
  | [] => none
  | (k', v) :: rest => if k' = k then some v else cacheLookup rest k

/-- Dict assignment `self.cache[cache_key] = chart_data`. -/
def cacheInsert (c : ChartCache) (k : String) (v : ChartData) : ChartCache :=
  (k, v) :: c.filter (fun p => p.1 != k)

/-- `ChartDataService._get_cache_key`. -/
def cacheKey (asset timeframe : String) : String := asset ++ "_" ++ timeframe

/-- `ChartDataService._is_cache_valid`: entry is valid while strictly less
than `cache_duration = 1 minute` (60 s) old. -/
def isCacheValid (now : ℤ) (cd : ChartData) : Bool :=
  now - cd.last_update < 60

/-- `ChartDataService.get_chart_data` (chart_data.py lines 88-156).
The fetch step (`_fetch_real_data` / `_fetch_mock_data`, chosen by whether
a live adapter is attached) is abstracted as the deterministic parameter
`fetch asset timeframe count now`; a fetch that raises or yields no
candles is modelled as an empty result, in which case the source returns
`None` and leaves the cache untouched.  Returns the response and the
updated cache. -/
def get_chart_data (fetch : String → String → ℕ → ℤ → List Candle)
    (now : ℤ) (cache : ChartCache) (asset timeframe : String) (count : ℕ)
    (force_refresh : Bool) : Option ChartData × ChartCache :=
  let key := cacheKey asset timeframe
  let cachedHit : Option ChartData :=
    if force_refresh then none
    else match cacheLookup cache key with
      | some cd => if isCacheValid now cd then some cd else none
      | none => none
  match cachedHit with
  | some cd => (some cd, cache)
  | none =>
    if asset ∉ supportedAssets then (none, cache)
    else if timeframe ∉ timeframeNames then (none, cache)
    else
      let candles := fetch asset timeframe count now
      if candles.isEmpty then (none, cache)
      else
        let cd : ChartData :=
          { asset := asset, timeframe := timeframe, candles := candles,
            last_update := now }
        (some cd, cacheInsert cache key cd)

/-! ## Brokerage service facade
(src/services/trading-bot/src/integrations/iq_option/service.py) and the
trading domain models (src/services/trading-bot/src/models/trading.py) -/

/-- `TradeDirection` enum: values `"call"` / `"put"`. -/
inductive TradeDirection
  | call
  | put
  deriving DecidableEq, Repr

/-- Enum lookup by value, `TradeDirection(s)`: raises (here `none`) on any
string other than the exact values `"call"` / `"put"`. -/
def TradeDirection.ofString (s : String) : Option TradeDirection :=
  if s = "call" then some .call
  else if s = "put" then some .put
  else none

/-- Python `str.lower()` (ASCII case folding, which covers the endpoint's
use). -/
def pyLower (s : String) : String := String.mk (s.data.map Char.toLower)

/-- The enum member's `.value`. -/
def TradeDirection.val : TradeDirection → String
  | .call => "call"
  | .put => "put"

/-- `TradeStatus` enum. -/
inductive TradeStatus
  | pending
  | executed
  | closed
  | cancelled
  deriving DecidableEq, Repr

/-- `TradeResponse` model. -/
structure TradeResponse where
  trade_id : String
  asset : String
  direction : TradeDirection
  amount : ℚ
  entry_price : ℚ
  exit_price : Option ℚ := none
  status : TradeStatus
  profit : Option ℚ := none
  created_at : ℤ
  closed_at : Option ℤ := none
  deriving DecidableEq, Repr

/-- A real-time quote dict as produced by `get_real_time_quote`. -/
structure Quote where
  asset : String
  price : ℚ
  timestamp : ℤ
  bid : ℚ
  ask : ℚ
  deriving DecidableEq, Repr

/-- The result dict of `execute_trade`; keys that a given branch does not
set are `none`. -/
structure TradeResult where
  success : Bool
  trade_id : Option String := none
  error : Option String := none
  asset : Option String := none
  direction : Option String := none
  amount : Option ℚ := none
  duration : Option ℤ := none
  profit : Option ℚ := none
  message : Option String := none
  deriving DecidableEq, Repr

/-- The real adapter (`IQOptionRealAPI`) as an oracle of call results; an
`Except.error` models a raised exception. -/
structure RealAPI where
  get_balance : Except String ℚ
  is_market_open : String → Except String Bool
  get_real_time_quote : String → Except String (Option Quote)
  execute_binary_trade : String → TradeDirection → ℚ → ℤ → Except String TradeResult

/-- The facade's state: `connected` and `use_real_api` flags and the
optional real adapter. -/
structure IQOptionService where
  connected : Bool
  use_real_api : Bool
  real_api : Option RealAPI

/-- Python `round(x, 5)` (round half to even at 5 decimal places). -/
def pyRound5 (x : ℚ) : ℚ :=
  let y := x * 100000
  let z : ℤ := if y - ⌊y⌋ = 1/2 then (if 2 ∣ ⌊y⌋ then ⌊y⌋ else ⌊y⌋ + 1) else round y
  (z : ℚ) / 100000

/-- `IQOptionService.get_balance` (service.py lines 147-160): 0.0 when not
connected; real-adapter delegation with exceptions caught to 0.0; mock
balance 10000.0. -/
def IQOptionService.get_balance (svc : IQOptionService) : ℚ :=
  if svc.connected = false then 0
  else
    match svc.use_real_api, svc.real_api with
    | true, some api =>
      match api.get_balance with
      | .ok b => b
      | .error _ => 0
    | _, _ => 10000

/-- `IQOptionService.is_market_open` (service.py lines 183-196): `False`
when not connected; real-adapter delegation with exceptions caught to
`False`; mock always open. -/
def IQOptionService.is_market_open (svc : IQOptionService) (asset : String) : Bool :=
  if svc.connected = false then false
  else
    match svc.use_real_api, svc.real_api with
    | true, some api =>
      match api.is_market_open asset with
      | .ok b => b
      | .error _ => false
    | _, _ => true

/-- `IQOptionService.get_real_time_quote` (service.py lines 198-220):
`None` when not connected; real-adapter delegation with exceptions caught
to `None`; mock synthesizes a quote around a per-asset base price with the
uniform draw `random.uniform(-0.01, 0.01)` exposed as `r`. -/
def IQOptionService.get_real_time_quote (svc : IQOptionService) (asset : String)
    (r : ℚ) (now : ℤ) : Option Quote :=
  if svc.connected = false then none
  else
    match svc.use_real_api, svc.real_api with
    | true, some api =>
      match api.get_real_time_quote asset with
      | .ok q => q
      | .error _ => none
    | _, _ =>
      let base : ℚ := if asset = "EURUSD" then 12/10 else 1
      let price := base + r
      some { asset := asset, price := pyRound5 price, timestamp := now,
             bid := pyRound5 (price - 1/10000), ask := pyRound5 (price + 1/10000) }

/-- `IQOptionService.execute_trade` (service.py lines 66-119): raises when
not connected; real-adapter delegation with exceptions caught into a
`success = false` dict; mock trade always succeeds with an 80% profit. -/
def IQOptionService.execute_trade (svc : IQOptionService) (asset : String)
    (direction : TradeDirection) (amount : ℚ) (duration : ℤ) (now : ℤ) :
    Except String TradeResult :=
  if svc.connected = false then .error "Not connected to IQ Option API"
  else
    match svc.use_real_api, svc.real_api with
    | true, some api =>
      match api.execute_binary_trade asset direction amount duration with
      | .ok res => .ok res
      | .error e =>
        .ok { success := false, error := some e, asset := some asset,
              direction := some direction.val, amount := some amount,
              duration := some duration }
    | _, _ =>
      .ok { success := true,
            trade_id := some ("mock_trade_id_" ++ toString now),
            asset := some asset, direction := some direction.val,
            amount := some amount, duration := some duration,
            profit := some (amount * (8/10)),
            message := some "Mock trade executed successfully" }

/-- `IQOptionService.get_recent_trades` (service.py lines 121-145): raises
when not connected; otherwise returns the fixed mock history. -/
def IQOptionService.get_recent_trades (svc : IQOptionService) (now : ℤ) :
    Except String (List TradeResponse) :=
  if svc.connected = false then .error "Not connected to IQ Option API"
  else
    .ok [{ trade_id := "mock_trade_1", asset := "EURUSD",
           direction := .call, amount := 10, entry_price := 12345/10000,
           status := .closed, profit := some 8, created_at := now,
           closed_at := some now }]

/-! ## The chart router's trade-execution endpoint
(src/services/trading-bot/src/api/routers/chart.py, `execute_trade`,
lines 263-313) -/

/-- The observable outcome of `POST /chart/trade/execute`: an HTTP 400, an
HTTP 503, or delegation to the brokerage execute-trade operation (carrying
its result). -/
inductive EndpointResult
  | badRequest (detail : String)
  | serviceUnavailable (detail : String)
  | delegated (result : Except String TradeResult)
  deriving Repr

/-- The endpoint's validation chain, in source order: direction (parsed
after `.lower()`), amount > 0, amount ≤ 10000, duration whitelist,
brokerage connectivity, market-open state; only then the brokerage
execute-trade call. -/
def execute_trade_endpoint (svc : IQOptionService) (asset direction : String)
    (amount : ℚ) (duration : ℤ) (now : ℤ) : EndpointResult :=
  match TradeDirection.ofString (pyLower direction) with
  | none => .badRequest ("Invalid direction: " ++ direction ++ ". Use 'call' or 'put'")
  | some d =>
    if amount ≤ 0 then .badRequest "Amount must be greater than 0"
    else if amount > 10000 then .badRequest "Amount too large (max: $10,000)"
    else if duration ∉ ([60, 120, 300, 600, 900, 1800, 3600] : List ℤ) then
      .badRequest "Invalid duration. Use: 60, 120, 300, 600, 900, 1800, or 3600 seconds"
    else if svc.connected = false then
      .serviceUnavailable "Not connected to IQ Option API"
    else if svc.is_market_open asset = false then
      .badRequest ("Market is closed for " ++ asset)
    else
      .delegated (svc.execute_trade asset d amount duration now)

/-! ## Benchmark percentile helper
(src/benchmarking/benchmark_latency.py, `APIBenchmark._percentile`,
lines 84-95) -/

/-- Python `int()` applied to a float: truncation toward zero. -/
def pyInt (q : ℚ) : ℤ := if 0 ≤ q then ⌊q⌋ else ⌈q⌉

/-- Python list indexing `l[i]`: a nonnegative index reads left-to-right, a
negative index wraps once from the right, anything out of range raises
IndexError (here `none`). -/
def pyGet (l : List ℚ) (i : ℤ) : Option ℚ :=
  if 0 ≤ i then l.get? i.toNat
  else if 0 ≤ i + l.length then l.get? (i + l.length).toNat
  else none

/-- `APIBenchmark._percentile`: 0 for an empty list; otherwise with
`index = (percentile/100) * len(sorted_data)` over the sorted data, a
whole-number index reads `sorted_data[int(index) - 1]`, else the values at
`int(index)` and `int(index) + 1` are averaged.  An out-of-range read
raises IndexError, modelled as `none`. -/
def percentile (data : List ℚ) (p : ℚ) : Option ℚ :=
  if data.isEmpty then some 0
  else
    let sorted := data.mergeSort (fun a b => decide (a ≤ b))
    let index : ℚ := p / 100 * sorted.length
    if index.den = 1 then
      pyGet sorted (pyInt index - 1)
    else
      match pyGet sorted (pyInt index), pyGet sorted (pyInt index + 1) with
      | some lower, some upper => some ((lower + upper) / 2)
      | _, _ => none

/-! ## Manifest system
(src/services/trading-bot/src/core/manifests.py: `ManifestLoader`,
`IndicatorManifest` / `TriggerManifest` / `NewsFeedManifest`) -/

/-- A parsed YAML value (the output of `yaml.safe_load`); the YAML text
layer itself is the third-party boundary. -/
inductive Yaml
  | s (v : String)
  | i (v : ℤ)
  | q (v : ℚ)
  | b (v : Bool)
  | null
  | arr (items : List Yaml)
  | map (entries : List (String × Yaml))

/-- `dict.get(k)` on a YAML mapping (keys are unique after parsing; first
match). -/
def yamlGet (entries : List (String × Yaml)) (k : String) : Option Yaml :=
  match entries with
  | [] => none
  | (k', v) :: rest => if k' = k then some v else yamlGet rest k

/-- A YAML value that must be a string. -/
def yamlStr? : Yaml → Option String
  | .s v => some v
  | _ => none

/-- All-strings validation of a YAML sequence, element by element. -/
def strListAux : List Yaml → Option (List String)
  | [] => some []
  | y :: rest =>
    match yamlStr? y, strListAux rest with
    | some v, some vs => some (v :: vs)
    | _, _ => none

/-- A YAML value that must be a list of strings. -/
def strList : Yaml → Option (List String)
  | .arr items => strListAux items
  | _ => none

/-- A required pydantic `str` field (modelled strictly: the YAML value must
be a string; pydantic's numeric-to-string coercion is not exercised by any
claim). -/
def reqStr (entries : List (String × Yaml)) (k : String) : Option String :=
  match yamlGet entries k with
  | some (.s v) => some v
  | _ => none

/-- An `Optional[str] = None` field. -/
def optStrField (entries : List (String × Yaml)) (k : String) :
    Option (Option String) :=
  match yamlGet entries k with
  | none => some none
  | some .null => some none
  | some (.s v) => some (some v)
  | some _ => none

/-- A `str` field with a default. -/
def strD (entries : List (String × Yaml)) (k d : String) : Option String :=
  match yamlGet entries k with
  | none => some d
  | some (.s v) => some v
  | some _ => none

/-- A `bool` field with a default. -/
def boolD (entries : List (String × Yaml)) (k : String) (d : Bool) : Option Bool :=
  match yamlGet entries k with
  | none => some d
  | some (.b v) => some v
  | some _ => none

/-- A required `List[str]` field. -/
def reqStrList (entries : List (String × Yaml)) (k : String) :
    Option (List String) :=
  match yamlGet entries k with
  | some y => strList y
  | none => none

/-- A `List[str]` field with a default. -/
def strListD (entries : List (String × Yaml)) (k : String) (d : List String) :
    Option (List String) :=
  match yamlGet entries k with
  | none => some d
  | some y => strList y

/-- A `Dict[str, Any]` field defaulting to `{}`. -/
def paramsD (entries : List (String × Yaml)) (k : String) :
    Option (List (String × Yaml)) :=
  match yamlGet entries k with
  | none => some []
  | some (.map m) => some m
  | some _ => none

/-- `IndicatorManifest` (manifests.py lines 31-38); the `type` field is
fixed to `indicator` by the dispatch that constructs it. -/
structure IndicatorManifest where
  name : String
  version : String
  description : String
  author : Option String
  implementation : String
  parameters : List (String × Yaml)
  inputs : List String
  outputs : List String
  timeframe_support : List String

/-- `TriggerManifest` (manifests.py lines 41-48). -/
structure TriggerManifest where
  name : String
  version : String
  description : String
  author : Option String
  implementation : String
  parameters : List (String × Yaml)
  conditions : List String
  actions : List String
  required_indicators : List String

/-- `NewsFeedManifest` (manifests.py lines 51-59). -/
structure NewsFeedManifest where
  name : String
  version : String
  description : String
  author : Option String
  implementation : String
  parameters : List (String × Yaml)
  source_url : Option String
  update_interval : String
  sentiment_analysis : Bool
  keywords : List String

/-- `IndicatorManifest(**data)`: pydantic validation of the mapping. -/
def buildIndicatorManifest (entries : List (String × Yaml)) :
    Option IndicatorManifest := do
  let name ← reqStr entries "name"
  let version ← reqStr entries "version"
  let description ← reqStr entries "description"
  let author ← optStrField entries "author"
  let implementation ← reqStr entries "implementation"
  let parameters ← paramsD entries "parameters"
  let inputs ← strListD entries "inputs" ["close"]
  let outputs ← reqStrList entries "outputs"
  let timeframe_support ←
    strListD entries "timeframe_support" ["M1", "M5", "M15", "M30", "H1"]
  pure ⟨name, version, description, author, implementation, parameters,
        inputs, outputs, timeframe_support⟩

/-- `TriggerManifest(**data)`. -/
def buildTriggerManifest (entries : List (String × Yaml)) :
    Option TriggerManifest := do
  let name ← reqStr entries "name"
  let version ← reqStr entries "version"
  let description ← reqStr entries "description"
  let author ← optStrField entries "author"
  let implementation ← reqStr entries "implementation"
  let parameters ← paramsD entries "parameters"
  let conditions ← reqStrList entries "conditions"
  let actions ← strListD entries "actions" ["BUY", "SELL", "HOLD"]
  let required_indicators ← strListD entries "required_indicators" []
  pure ⟨name, version, description, author, implementation, parameters,
        conditions, actions, required_indicators⟩

/-- `NewsFeedManifest(**data)`. -/
def buildNewsFeedManifest (entries : List (String × Yaml)) :
    Option NewsFeedManifest := do
  let name ← reqStr entries "name"
  let version ← reqStr entries "version"
  let description ← reqStr entries "description"
  let author ← optStrField entries "author"
  let implementation ← reqStr entries "implementation"
  let parameters ← paramsD entries "parameters"
  let source_url ← optStrField entries "source_url"
  let update_interval ← strD entries "update_interval" "5m"
  let sentiment_analysis ← boolD entries "sentiment_analysis" true
  let keywords ← strListD entries "keywords" []
  pure ⟨name, version, description, author, implementation, parameters,
        source_url, update_interval, sentiment_analysis, keywords⟩

/-- The result of `load_manifest_from_file`. -/
inductive LoadedManifest
  | indicator (m : IndicatorManifest)
  | trigger (m : TriggerManifest)
  | news_feed (m : NewsFeedManifest)

/-- `ManifestLoader.load_manifest_from_file` (manifests.py lines 117-146).
The whole body sits in a `try/except` returning `None`, so the function
never raises.  `file` is the parsed content of the file: `none` for a
missing file (or unreadable/unparseable YAML); dispatch is on the `type`
field, with unknown types (and non-mapping documents, whose `.get` raises
AttributeError into the except) yielding `None`. -/
def load_manifest_from_file (file : Option Yaml) : Option LoadedManifest :=
  match file with
  | none => none
  | some (.map entries) =>
    match yamlGet entries "type" with
    | some (.s ty) =>
      if ty = "indicator" then (buildIndicatorManifest entries).map .indicator
      else if ty = "trigger" then (buildTriggerManifest entries).map .trigger
      else if ty = "news_feed" then (buildNewsFeedManifest entries).map .news_feed
      else none
    | _ => none
  | some _ => none

/-- Modelled from the spec: the writer half of the round-trip ("writing a
valid `IndicatorManifest` to YAML") has no implementation under src/ —
the repository never dumps a manifest back to YAML.  Following the spec's
words, serialization emits one mapping entry per manifest field, with the
`type` field's enum value `"indicator"`. -/
def indicatorManifestToYaml (m : IndicatorManifest) : Yaml :=
  .map [("name", .s m.name), ("version", .s m.version),
        ("description", .s m.description),
        ("author", match m.author with | some a => .s a | none => .null),
        ("type", .s "indicator"),
        ("implementation", .s m.implementation),
        ("parameters", .map m.parameters),
        ("inputs", .arr (m.inputs.map .s)),
        ("outputs", .arr (m.outputs.map .s)),
        ("timeframe_support", .arr (m.timeframe_support.map .s))]

/-- An instantiated component `component_class(manifest.parameters)`:
identified by its resolved implementation class and the constructor
parameters. -/
structure Component where
  cls : String
  parameters : List (String × Yaml)

/-- The (name, type, implementation, parameters) view of a `ManifestBase`
that `load_component` reads (common to all three manifest kinds). -/
structure ManifestInfo where
  name : String
  mtype : String
  implementation : String
  parameters : List (String × Yaml)

/-- Keys of the `builtin_indicators` table of `_get_builtin_component`. -/
def builtinIndicators : List String :=
  ["RSI", "MACD", "BollingerBands", "SMA", "EMA"]

/-- Keys of the `builtin_triggers` table of `_get_builtin_component`. -/
def builtinTriggers : List String :=
  ["PriceActionTrigger", "VolumeSpikeTrigger", "MomentumTrigger"]

/-- `ManifestLoader._get_builtin_component` (manifests.py lines 181-202):
classes are identified by their lookup key. -/
def get_builtin_component (name mtype : String) : Option String :=
  if mtype = "indicator" then
    (if name ∈ builtinIndicators then some name else none)
  else if mtype = "trigger" then
    (if name ∈ builtinTriggers then some name else none)
  else none

/-- Python's `'.' in manifest.implementation` over the string's
characters. -/
def containsDot (s : String) : Bool := s.data.contains '.'

/-- Lookup in the loader's `loaded_components` registry. -/
def lookupComponent (l : List (String × Component)) (k : String) :
    Option Component :=
  match l with
  | [] => none
  | (k', v) :: rest => if k' = k then some v else lookupComponent rest k

/-- `ManifestLoader.load_component` (manifests.py lines 148-179): return
the cached instance when the manifest name is already registered; else
resolve the implementation (dotted path → dynamic import, modelled by the
oracle `dynImport`; bare name → built-in table), instantiate it with the
manifest's parameters, and register it under the manifest name.  Returns
the component (or `none` on resolution failure) with the updated
registry. -/
def load_component (dynImport : String → Option String)
    (components : List (String × Component)) (m : ManifestInfo) :
    Option Component × List (String × Component) :=
  match lookupComponent components m.name with
  | some c => (some c, components)
  | none =>
    let cls? :=
      if containsDot m.implementation then dynImport m.implementation
      else get_builtin_component m.implementation m.mtype
    match cls? with
    | none => (none, components)
    | some cls =>
      let c : Component := { cls := cls, parameters := m.parameters }
      (some c, (m.name, c) :: components)

end IqBot

namespace IqBot

/-- Every `rsiStep` value is in `[0, 100]` when both smoothed averages are
nonnegative. -/
theorem rsiStep_bounds (avgGain avgLoss : ℚ) (hG : 0 ≤ avgGain)
    (hL : 0 ≤ avgLoss) : 0 ≤ rsiStep avgGain avgLoss ∧ rsiStep avgGain avgLoss ≤ 100 := by
  unfold rsiStep
  by_cases h : avgLoss = 0
  · simp [h]
  · have hLpos : 0 < avgLoss := lt_of_le_of_ne hL (Ne.symm h)
    have hrs : 0 ≤ avgGain / avgLoss := div_nonneg hG hL
    have h1 : (1 : ℚ) ≤ 1 + avgGain / avgLoss := by linarith
    have hdivpos : 0 ≤ 100 / (1 + avgGain / avgLoss) :=
      div_nonneg (by norm_num) (by linarith)
    have hdivle : 100 / (1 + avgGain / avgLoss) ≤ 100 :=
      div_le_self (by norm_num) h1
    simp only [h, if_false]
    constructor <;> linarith

/-- Invariant of the smoothing loop: with `period ≥ 1`, nonnegative running
averages and nonnegative gain/loss inputs, every emitted value lies in
`[0, 100]`. -/
theorem rsiLoop_bounds (period : ℕ) (hp : 1 ≤ period) :
    ∀ (pairs : List (ℚ × ℚ)) (avgGain avgLoss : ℚ),
      (∀ gl ∈ pairs, 0 ≤ gl.1 ∧ 0 ≤ gl.2) → 0 ≤ avgGain → 0 ≤ avgLoss →
      ∀ v ∈ rsiLoop period pairs avgGain avgLoss, 0 ≤ v ∧ v ≤ 100 := by
  intro pairs
  induction pairs with
  | nil => intro avgGain avgLoss _ _ _ v hv; simp [rsiLoop] at hv
  | cons gl rest ih =>
    intro avgGain avgLoss hpairs hG hL v hv
    obtain ⟨g, l⟩ := gl
    have hg : 0 ≤ g := (hpairs (g, l) (by simp)).1
    have hl : 0 ≤ l := (hpairs (g, l) (by simp)).2
    have hperiod : (1 : ℚ) ≤ (period : ℚ) := by exact_mod_cast hp
    have hPnn : (0 : ℚ) ≤ (period : ℚ) := by linarith
    have hG' : 0 ≤ (avgGain * ((period : ℚ) - 1) + g) / (period : ℚ) :=
      div_nonneg (by nlinarith) hPnn
    have hL' : 0 ≤ (avgLoss * ((period : ℚ) - 1) + l) / (period : ℚ) :=
      div_nonneg (by nlinarith) hPnn
    simp only [rsiLoop, List.mem_cons] at hv
    rcases hv with hv | hv
    · subst hv; exact rsiStep_bounds _ _ hG' hL'
    · exact ih _ _ (fun x hx => hpairs x (List.mem_cons_of_mem _ hx)) hG' hL' v hv

/-- Every value emitted by `RSIIndicator.calculate` lies in `[0, 100]`
(for any input; only `period ≥ 1` is needed). -/
theorem rsi_calculate_mem_bounds (period : ℕ) (data : List ℚ) (hp : 1 ≤ period) :
    ∀ v ∈ RSIIndicator.calculate period data, 0 ≤ v ∧ v ≤ 100 := by
  intro v hv
  unfold RSIIndicator.calculate at hv
  by_cases h : data.length < period + 1
  · rw [if_pos h] at hv; simp at hv
  · rw [if_neg h] at hv
    simp only at hv
    set deltas := (data.tail.zip data).map (fun p => p.1 - p.2) with hdeltas
    refine rsiLoop_bounds period hp _ _ _ ?_ ?_ ?_ v hv
    · intro gl hgl
      obtain ⟨h1, h2⟩ := List.of_mem_zip hgl
      have h1' := List.mem_of_mem_drop h1
      have h2' := List.mem_of_mem_drop h2
      obtain ⟨d1, _, hd1⟩ := List.mem_map.mp h1'
      obtain ⟨d2, _, hd2⟩ := List.mem_map.mp h2'
      exact ⟨hd1 ▸ le_max_right d1 0, hd2 ▸ abs_nonneg _⟩
    · refine div_nonneg (List.sum_nonneg ?_) (by positivity)
      intro g hg
      obtain ⟨d, _, hd⟩ := List.mem_map.mp (List.mem_of_mem_take hg)
      exact hd ▸ le_max_right d 0
    · refine div_nonneg (List.sum_nonneg ?_) (by positivity)
      intro l hl
      obtain ⟨d, _, hd⟩ := List.mem_map.mp (List.mem_of_mem_take hl)
      exact hd ▸ abs_nonneg _

/-- C3: for every price series of length ≥ period+1 and every period ≥ 1,
every value produced by `RSIIndicator.calculate` lies in `[0, 100]`
inclusive, and a value is exactly 100 whenever the smoothed average loss at
that step is 0, else equals `100 - 100/(1 + avg_gain/avg_loss)`. -/
theorem rsi_values_bounded_and_formula (period : ℕ) (data : List ℚ)
    (hp : 1 ≤ period) (_hlen : period + 1 ≤ data.length) :
    (∀ v ∈ RSIIndicator.calculate period data, 0 ≤ v ∧ v ≤ 100) ∧
    (∀ avgGain avgLoss : ℚ,
      (avgLoss = 0 → rsiStep avgGain avgLoss = 100) ∧
      (avgLoss ≠ 0 →
        rsiStep avgGain avgLoss = 100 - 100 / (1 + avgGain / avgLoss))) := by
  refine ⟨rsi_calculate_mem_bounds period data hp, fun avgGain avgLoss => ⟨?_, ?_⟩⟩
  · intro h; simp [rsiStep, h]
  · intro h; simp [rsiStep, h]

/-- Witness for C3 at `period = 1`, `data = [1, 2, 3]`: the single emitted
value is 100 and the theorem bounds it. -/
theorem rsi_values_bounded_and_formula_check : 0 ≤ (100 : ℚ) ∧ (100 : ℚ) ≤ 100 :=
  (rsi_values_bounded_and_formula 1 [1, 2, 3] (by norm_num) (by norm_num)).1
    100 (by norm_num [RSIIndicator.calculate, rsiLoop, rsiStep])

/-- C1: `RiskManager.validate_trade` accepts a request whose amount equals
the per-trade risk limit (when the daily loss limit is not breached),
rejects any request whose amount is strictly greater, and rejects every
request when the accumulated daily P&L is ≤ the negative of the daily loss
limit, regardless of amount. -/
theorem validate_trade_spec (rm : RiskManager) (amount : ℚ) :
    (rm.daily_pnl > -rm.daily_loss_limit →
      rm.validate_trade rm.trade_risk_limit = true) ∧
    (amount > rm.trade_risk_limit → rm.validate_trade amount = false) ∧
    (rm.daily_pnl ≤ -rm.daily_loss_limit → rm.validate_trade amount = false) := by
  refine ⟨fun h => ?_, fun h => ?_, fun h => ?_⟩
  · simp [RiskManager.validate_trade, not_le.mpr h]
  · by_cases hp : rm.daily_pnl ≤ -rm.daily_loss_limit <;>
      simp [RiskManager.validate_trade, hp, h]
  · simp [RiskManager.validate_trade, h]

/-- Witness for C1 with the settings defaults (`default_risk_per_trade =
0.02`, `max_daily_risk = 0.05`): amount 0.02 accepted, 0.03 rejected, and
with P&L at −0.05 even 0.01 is rejected. -/
theorem validate_trade_spec_check :
    RiskManager.validate_trade ⟨0, 5/100, 2/100⟩ (2/100) = true ∧
    RiskManager.validate_trade ⟨0, 5/100, 2/100⟩ (3/100) = false ∧
    RiskManager.validate_trade ⟨-(5/100), 5/100, 2/100⟩ (1/100) = false :=
  ⟨(validate_trade_spec ⟨0, 5/100, 2/100⟩ (2/100)).1 (by norm_num),
   (validate_trade_spec ⟨0, 5/100, 2/100⟩ (3/100)).2.1 (by norm_num),
   (validate_trade_spec ⟨-(5/100), 5/100, 2/100⟩ (1/100)).2.2 (by norm_num)⟩

/-- C6: when `last_trade_date` differs from today (including `None`), the
new-day check zeroes `daily_trades` and `daily_losses` and sets
`last_trade_date` to today, regardless of prior counter values; when it
equals today, the state is unchanged. -/
theorem check_new_day_spec (today : ℤ) (s : AgentCounters) :
    (s.last_trade_date ≠ some today →
      check_new_day today s =
        { daily_trades := 0, daily_losses := 0, last_trade_date := some today }) ∧
    (s.last_trade_date = some today → check_new_day today s = s) := by
  constructor <;> intro h <;> simp [check_new_day, h]

/-- Witness for C6: counters (7, 3) dated day 5 reset on day 6; the same
counters dated day 6 survive day 6 unchanged. -/
theorem check_new_day_spec_check :
    check_new_day 6 ⟨7, 3, some 5⟩ = ⟨0, 0, some 6⟩ ∧
    check_new_day 6 ⟨7, 3, some 6⟩ = ⟨7, 3, some 6⟩ :=
  ⟨(check_new_day_spec 6 ⟨7, 3, some 5⟩).1 (by decide),
   (check_new_day_spec 6 ⟨7, 3, some 6⟩).2 rfl⟩

/-- `random.choice` over a non-empty list always yields a member. -/
theorem randomChoice_mem (l : List String) (hl : l ≠ []) (r : ℕ) :
    randomChoice l r ∈ l := by
  have hlen : 0 < l.length := List.length_pos.mpr hl
  have hlt : r % l.length < l.length := Nat.mod_lt _ hlen
  unfold randomChoice
  rw [List.getD_eq_getElem?_getD, List.getElem?_eq_getElem hlt]
  exact List.getElem_mem hlt

/-- C2: `POST /completion` provider resolution: with no available provider
the gateway fails with 503; a requested provider that is in the available
set is always used; otherwise the provider used is some member of the
available set, never an unavailable one. -/
theorem resolve_provider_spec (registry : List (String × Bool))
    (requested : Option String) (r : ℕ) :
    (availableProviders registry = [] →
      resolveProvider registry requested r = .error 503) ∧
    (∀ p, requested = some p → p ∈ availableProviders registry →
      resolveProvider registry requested r = .ok p) ∧
    (availableProviders registry ≠ [] →
      ∃ q ∈ availableProviders registry,
        resolveProvider registry requested r = .ok q) := by
  refine ⟨fun h => ?_, fun p hreq hmem => ?_, fun h => ?_⟩
  · simp [resolveProvider, h]
  · subst hreq
    simp [resolveProvider, List.isEmpty_iff, List.ne_nil_of_mem hmem, hmem]
  · have hne : ¬(availableProviders registry).isEmpty := by
      simpa [List.isEmpty_iff] using h
    match hr : requested with
    | some p =>
      by_cases hmem : p ∈ availableProviders registry
      · exact ⟨p, hmem, by simp [resolveProvider, hne, hmem]⟩
      · exact ⟨randomChoice (availableProviders registry) r,
          randomChoice_mem _ h r, by simp [resolveProvider, hne, hmem]⟩
    | none =>
      exact ⟨randomChoice (availableProviders registry) r,
        randomChoice_mem _ h r, by simp [resolveProvider, hne]⟩

/-- Witness for C2: an empty registry yields 503; a requested available
provider is honored for an arbitrary random draw. -/
theorem resolve_provider_spec_check :
    resolveProvider [] (some "gemini") 0 = .error 503 ∧
    resolveProvider [("gemini", true), ("ollama", false)] (some "gemini") 5 =
      .ok "gemini" :=
  ⟨(resolve_provider_spec [] (some "gemini") 0).1 rfl,
   (resolve_provider_spec [("gemini", true), ("ollama", false)]
      (some "gemini") 5).2.1 "gemini" rfl (by simp [availableProviders])⟩

/-- C4: with the cache holding an entry for (asset, timeframe) written at
time `T` and `force_refresh` false, any call strictly before `T + 60 s`
returns that identical cached object (same candles, same `last_update`)
regardless of the requested count and leaves the cache unchanged; a call
at or after `T + 60 s` (for a supported asset / known timeframe, with the
fetch yielding data) performs a fresh fetch and replaces the entry with
`last_update = now`. -/
theorem chart_cache_ttl_spec (fetch : String → String → ℕ → ℤ → List Candle)
    (cache : ChartCache) (asset timeframe : String) (cd : ChartData) (T now : ℤ)
    (hcache : cacheLookup cache (cacheKey asset timeframe) = some cd)
    (hT : cd.last_update = T) :
    (now < T + 60 → ∀ count,
      get_chart_data fetch now cache asset timeframe count false = (some cd, cache)) ∧
    (T + 60 ≤ now → asset ∈ supportedAssets → timeframe ∈ timeframeNames →
      ∀ count, fetch asset timeframe count now ≠ [] →
        get_chart_data fetch now cache asset timeframe count false =
          (some { asset := asset, timeframe := timeframe,
                  candles := fetch asset timeframe count now, last_update := now },
           cacheInsert cache (cacheKey asset timeframe)
             { asset := asset, timeframe := timeframe,
               candles := fetch asset timeframe count now, last_update := now })) := by
  constructor
  · intro hlt count
    have hvalid : isCacheValid now cd = true := by
      simp only [isCacheValid, hT, decide_eq_true_eq]
      linarith
    simp [get_chart_data, hcache, hvalid]
  · intro hge hmem htf count hne
    have hvalid : isCacheValid now cd = false := by
      simp only [isCacheValid, hT, decide_eq_false_iff_not, not_lt]
      linarith
    simp [get_chart_data, hcache, hvalid, hmem, htf, List.isEmpty_iff, hne]

/-- Witness for C4: a cache entry written at T = 0 for (EURUSD, M1) is
served unchanged at t = 30 s; at t = 60 s the fetch result replaces it. -/
theorem chart_cache_ttl_spec_check :
    get_chart_data (fun _ _ _ _ => [⟨2, 2, 2, 2, 500, 30⟩]) 30
      [("EURUSD_M1", ⟨"EURUSD", "M1", [⟨1, 1, 1, 1, 1000, 0⟩], 0⟩)]
      "EURUSD" "M1" 5 false =
      (some ⟨"EURUSD", "M1", [⟨1, 1, 1, 1, 1000, 0⟩], 0⟩,
       [("EURUSD_M1", ⟨"EURUSD", "M1", [⟨1, 1, 1, 1, 1000, 0⟩], 0⟩)]) ∧
    get_chart_data (fun _ _ _ _ => [⟨2, 2, 2, 2, 500, 60⟩]) 60
      [("EURUSD_M1", ⟨"EURUSD", "M1", [⟨1, 1, 1, 1, 1000, 0⟩], 0⟩)]
      "EURUSD" "M1" 5 false =
      (some ⟨"EURUSD", "M1", [⟨2, 2, 2, 2, 500, 60⟩], 60⟩,
       cacheInsert [("EURUSD_M1", ⟨"EURUSD", "M1", [⟨1, 1, 1, 1, 1000, 0⟩], 0⟩)]
         "EURUSD_M1" ⟨"EURUSD", "M1", [⟨2, 2, 2, 2, 500, 60⟩], 60⟩) :=
  ⟨(chart_cache_ttl_spec (fun _ _ _ _ => [⟨2, 2, 2, 2, 500, 30⟩])
      [("EURUSD_M1", ⟨"EURUSD", "M1", [⟨1, 1, 1, 1, 1000, 0⟩], 0⟩)]
      "EURUSD" "M1" ⟨"EURUSD", "M1", [⟨1, 1, 1, 1, 1000, 0⟩], 0⟩ 0 30
      rfl rfl).1 (by norm_num) 5,
   (chart_cache_ttl_spec (fun _ _ _ _ => [⟨2, 2, 2, 2, 500, 60⟩])
      [("EURUSD_M1", ⟨"EURUSD", "M1", [⟨1, 1, 1, 1, 1000, 0⟩], 0⟩)]
      "EURUSD" "M1" ⟨"EURUSD", "M1", [⟨1, 1, 1, 1, 1000, 0⟩], 0⟩ 0 60
      rfl rfl).2 (by norm_num) (by decide) (by decide) 5 (by decide)⟩

/-- C10: when the facade is not connected, `get_balance` returns 0.0,
`is_market_open` returns `False`, `get_real_time_quote` returns `None`,
and `execute_trade` / `get_recent_trades` raise a not-connected error —
regardless of mode flags or what the real adapter would report. -/
theorem disconnected_facade_spec (svc : IQOptionService)
    (h : svc.connected = false) (asset : String) (d : TradeDirection)
    (amount : ℚ) (duration : ℤ) (r : ℚ) (now : ℤ) :
    svc.get_balance = 0 ∧
    svc.is_market_open asset = false ∧
    svc.get_real_time_quote asset r now = none ∧
    svc.execute_trade asset d amount duration now =
      .error "Not connected to IQ Option API" ∧
    svc.get_recent_trades now = .error "Not connected to IQ Option API" := by
  refine ⟨?_, ?_, ?_, ?_, ?_⟩ <;>
    simp [IQOptionService.get_balance, IQOptionService.is_market_open,
      IQOptionService.get_real_time_quote, IQOptionService.execute_trade,
      IQOptionService.get_recent_trades, h]

/-- Witness for C10: a disconnected facade in real mode whose adapter would
report balance 42 and an open market still reports 0.0 / closed / no
quote, and both stateful operations raise. -/
theorem disconnected_facade_spec_check :
    IQOptionService.get_balance
      ⟨false, true, some ⟨.ok 42, fun _ => .ok true, fun _ => .ok none,
        fun _ _ _ _ => .ok { success := true }⟩⟩ = 0 ∧
    IQOptionService.is_market_open
      ⟨false, true, some ⟨.ok 42, fun _ => .ok true, fun _ => .ok none,
        fun _ _ _ _ => .ok { success := true }⟩⟩ "EURUSD" = false ∧
    IQOptionService.get_real_time_quote
      ⟨false, true, some ⟨.ok 42, fun _ => .ok true, fun _ => .ok none,
        fun _ _ _ _ => .ok { success := true }⟩⟩ "EURUSD" 0 0 = none ∧
    IQOptionService.execute_trade
      ⟨false, true, some ⟨.ok 42, fun _ => .ok true, fun _ => .ok none,
        fun _ _ _ _ => .ok { success := true }⟩⟩ "EURUSD" .call 5 60 0 =
      .error "Not connected to IQ Option API" ∧
    IQOptionService.get_recent_trades
      ⟨false, true, some ⟨.ok 42, fun _ => .ok true, fun _ => .ok none,
        fun _ _ _ _ => .ok { success := true }⟩⟩ 0 =
      .error "Not connected to IQ Option API" :=
  disconnected_facade_spec
    ⟨false, true, some ⟨.ok 42, fun _ => .ok true, fun _ => .ok none,
      fun _ _ _ _ => .ok { success := true }⟩⟩ rfl "EURUSD" .call 5 60 0 0

/-- C5 counterexample: the claim says the endpoint rejects, with 400, any
direction other than the strings 'call'/'put'.  But the source lowercases
the input first: direction "CALL" (which is neither 'call' nor 'put')
passes validation and the call is delegated to the brokerage execute-trade
operation. -/
theorem execute_trade_direction_case_counterexample :
    execute_trade_endpoint ⟨true, false, none⟩ "EURUSD" "CALL" 100 60 0 =
      .delegated (Except.ok { success := true,
                              trade_id := some "mock_trade_id_0",
                              asset := some "EURUSD",
                              direction := some "call",
                              amount := some 100,
                              duration := some 60,
                              profit := some 80,
                              message := some "Mock trade executed successfully" }) := by
  have hdir : TradeDirection.ofString (pyLower "CALL") = some TradeDirection.call := by
    decide
  norm_num [execute_trade_endpoint, hdir, IQOptionService.is_market_open,
    IQOptionService.execute_trade, TradeDirection.val]
  rfl

/-- C5 (amended): with direction validation applied to the lowercased
input, the endpoint rejects in source order — invalid direction 400,
amount ≤ 0 or > 10000 400, non-whitelisted duration 400, not connected
503, closed market 400 — and only when all five checks pass does it
delegate to the brokerage execute-trade operation. -/
theorem execute_trade_validation_spec (svc : IQOptionService)
    (asset direction : String) (amount : ℚ) (duration now : ℤ) :
    (TradeDirection.ofString (pyLower direction) = none →
      execute_trade_endpoint svc asset direction amount duration now =
        .badRequest ("Invalid direction: " ++ direction ++ ". Use 'call' or 'put'")) ∧
    (∀ d, TradeDirection.ofString (pyLower direction) = some d →
      (amount ≤ 0 →
        execute_trade_endpoint svc asset direction amount duration now =
          .badRequest "Amount must be greater than 0") ∧
      (0 < amount → 10000 < amount →
        execute_trade_endpoint svc asset direction amount duration now =
          .badRequest "Amount too large (max: $10,000)") ∧
      (0 < amount → amount ≤ 10000 →
        duration ∉ ([60, 120, 300, 600, 900, 1800, 3600] : List ℤ) →
        execute_trade_endpoint svc asset direction amount duration now =
          .badRequest
            "Invalid duration. Use: 60, 120, 300, 600, 900, 1800, or 3600 seconds") ∧
      (0 < amount → amount ≤ 10000 →
        duration ∈ ([60, 120, 300, 600, 900, 1800, 3600] : List ℤ) →
        svc.connected = false →
        execute_trade_endpoint svc asset direction amount duration now =
          .serviceUnavailable "Not connected to IQ Option API") ∧
      (0 < amount → amount ≤ 10000 →
        duration ∈ ([60, 120, 300, 600, 900, 1800, 3600] : List ℤ) →
        svc.connected = true → svc.is_market_open asset = false →
        execute_trade_endpoint svc asset direction amount duration now =
          .badRequest ("Market is closed for " ++ asset)) ∧
      (0 < amount → amount ≤ 10000 →
        duration ∈ ([60, 120, 300, 600, 900, 1800, 3600] : List ℤ) →
        svc.connected = true → svc.is_market_open asset = true →
        execute_trade_endpoint svc asset direction amount duration now =
          .delegated (svc.execute_trade asset d amount duration now))) := by
  constructor
  · intro hdir
    simp [execute_trade_endpoint, hdir]
  · intro d hdir
    refine ⟨fun h1 => ?_, fun h1 h2 => ?_, fun h1 h2 h3 => ?_,
      fun h1 h2 h3 h4 => ?_, fun h1 h2 h3 h4 h5 => ?_, fun h1 h2 h3 h4 h5 => ?_⟩
    · simp [execute_trade_endpoint, hdir, h1]
    · simp [execute_trade_endpoint, hdir, not_le.mpr h1, h2]
    · simp [execute_trade_endpoint, hdir, not_le.mpr h1, not_lt.mpr h2, h3]
    · simp [execute_trade_endpoint, hdir, not_le.mpr h1, not_lt.mpr h2, h3, h4]
    · simp [execute_trade_endpoint, hdir, not_le.mpr h1, not_lt.mpr h2, h3, h4, h5]
    · simp [execute_trade_endpoint, hdir, not_le.mpr h1, not_lt.mpr h2, h3, h4, h5]

/-- Witness for C5 (amended): each rejection branch and the delegation
branch exercised at concrete inputs. -/
theorem execute_trade_validation_spec_check :
    execute_trade_endpoint ⟨true, false, none⟩ "EURUSD" "sideways" 100 60 0 =
      .badRequest "Invalid direction: sideways. Use 'call' or 'put'" ∧
    execute_trade_endpoint ⟨true, false, none⟩ "EURUSD" "put" 0 60 0 =
      .badRequest "Amount must be greater than 0" ∧
    execute_trade_endpoint ⟨true, false, none⟩ "EURUSD" "put" 10001 60 0 =
      .badRequest "Amount too large (max: $10,000)" ∧
    execute_trade_endpoint ⟨true, false, none⟩ "EURUSD" "put" 100 61 0 =
      .badRequest
        "Invalid duration. Use: 60, 120, 300, 600, 900, 1800, or 3600 seconds" ∧
    execute_trade_endpoint ⟨false, false, none⟩ "EURUSD" "put" 100 60 0 =
      .serviceUnavailable "Not connected to IQ Option API" ∧
    execute_trade_endpoint
      ⟨true, true, some ⟨.ok 0, fun _ => .ok false, fun _ => .ok none,
        fun _ _ _ _ => .ok { success := false }⟩⟩ "EURUSD" "put" 100 60 0 =
      .badRequest "Market is closed for EURUSD" ∧
    execute_trade_endpoint ⟨true, false, none⟩ "EURUSD" "call" 100 60 0 =
      .delegated (IQOptionService.execute_trade ⟨true, false, none⟩
        "EURUSD" .call 100 60 0) :=
  ⟨(execute_trade_validation_spec ⟨true, false, none⟩ "EURUSD" "sideways"
      100 60 0).1 (by decide),
   ((execute_trade_validation_spec ⟨true, false, none⟩ "EURUSD" "put"
      0 60 0).2 .put (by decide)).1 (by norm_num),
   ((execute_trade_validation_spec ⟨true, false, none⟩ "EURUSD" "put"
      10001 60 0).2 .put (by decide)).2.1 (by norm_num) (by norm_num),
   ((execute_trade_validation_spec ⟨true, false, none⟩ "EURUSD" "put"
      100 61 0).2 .put (by decide)).2.2.1 (by norm_num) (by norm_num) (by decide),
   ((execute_trade_validation_spec ⟨false, false, none⟩ "EURUSD" "put"
      100 60 0).2 .put (by decide)).2.2.2.1 (by norm_num) (by norm_num)
      (by decide) rfl,
   ((execute_trade_validation_spec
      ⟨true, true, some ⟨.ok 0, fun _ => .ok false, fun _ => .ok none,
        fun _ _ _ _ => .ok { success := false }⟩⟩ "EURUSD" "put"
      100 60 0).2 .put (by decide)).2.2.2.2.1 (by norm_num) (by norm_num)
      (by decide) rfl rfl,
   ((execute_trade_validation_spec ⟨true, false, none⟩ "EURUSD" "call"
      100 60 0).2 .call (by decide)).2.2.2.2.2 (by norm_num) (by norm_num)
      (by decide) rfl rfl⟩

/-- C7 counterexample: the claim says the helper returns the average of the
elements at indices floor(r) and floor(r)+1 even in the boundary case
floor(r)+1 = n.  On `[10, 20, …, 100]` with p = 95, r = 9.5, the upper
read `sorted_data[10]` is out of range: the source raises IndexError and
returns nothing. -/
theorem percentile_boundary_counterexample :
    percentile [10, 20, 30, 40, 50, 60, 70, 80, 90, 100] 95 = none := by
  have hs : List.mergeSort [(10 : ℚ), 20, 30, 40, 50, 60, 70, 80, 90, 100]
      (fun a b => decide (a ≤ b)) = [10, 20, 30, 40, 50, 60, 70, 80, 90, 100] :=
    List.mergeSort_of_sorted (by norm_num)
  have h9 : pyGet [(10 : ℚ), 20, 30, 40, 50, 60, 70, 80, 90, 100] 9 = some 100 := by
    decide
  have h10 : pyGet [(10 : ℚ), 20, 30, 40, 50, 60, 70, 80, 90, 100] 10 = none := by
    decide
  simp only [percentile, hs]
  norm_num [pyInt]
  rw [h9, h10]

/-- C7 (amended): for a non-empty latency list of length n and percentile
0 < p ≤ 100, with rank r = (p/100)×n over the sorted list: when r is a
whole number the helper returns the element at index r−1; when r is
fractional and floor(r)+1 < n it returns the average of the elements at
indices floor(r) and floor(r)+1; in the boundary case floor(r)+1 = n it
raises IndexError (returns nothing) instead of a value; for an empty list
it returns 0. -/
theorem percentile_spec (data sorted : List ℚ) (p index : ℚ)
    (hsorted : sorted = data.mergeSort (fun a b => decide (a ≤ b)))
    (hindex : index = p / 100 * sorted.length)
    (hne : data ≠ []) (hp0 : 0 < p) (hp100 : p ≤ 100) :
    percentile [] p = some 0 ∧
    (index.den = 1 →
      ∃ h : (index.num - 1).toNat < sorted.length,
        percentile data p = some (sorted.get ⟨(index.num - 1).toNat, h⟩)) ∧
    (index.den ≠ 1 → ⌊index⌋.toNat + 1 < sorted.length →
      ∃ (h1 : ⌊index⌋.toNat < sorted.length)
        (h2 : ⌊index⌋.toNat + 1 < sorted.length),
        percentile data p =
          some ((sorted.get ⟨⌊index⌋.toNat, h1⟩ +
                 sorted.get ⟨⌊index⌋.toNat + 1, h2⟩) / 2)) ∧
    (index.den ≠ 1 → ⌊index⌋.toNat + 1 = sorted.length →
      percentile data p = none) := by
  have hlen : sorted.length = data.length := by
    rw [hsorted]; exact List.length_mergeSort data
  have hnpos : 0 < data.length := List.length_pos.mpr hne
  have hspos : 0 < sorted.length := hlen ▸ hnpos
  have hcast : (0 : ℚ) < (sorted.length : ℚ) := by exact_mod_cast hspos
  have hipos : 0 < index := by
    rw [hindex]; exact mul_pos (by positivity) hcast
  have hie : ¬(data.isEmpty = true) := by simp [List.isEmpty_iff, hne]
  have hperc : percentile data p =
      (if index.den = 1 then pyGet sorted (pyInt index - 1)
       else
         match pyGet sorted (pyInt index), pyGet sorted (pyInt index + 1) with
         | some lower, some upper => some ((lower + upper) / 2)
         | _, _ => none) := by
    simp only [percentile, if_neg hie]
    rw [← hsorted, ← hindex]
  have hpyInt : pyInt index = ⌊index⌋ := by
    unfold pyInt; rw [if_pos hipos.le]
  refine ⟨by rfl, fun hden => ?_, fun hden hub => ?_, fun hden hub => ?_⟩
  · have hi : ((index.num : ℚ)) = index := (Rat.den_eq_one_iff index).mp hden
    have hnum0 : 0 < index.num := Rat.num_pos.mpr hipos
    have hile : index ≤ (sorted.length : ℚ) := by
      rw [hindex]
      have h1 : p / 100 ≤ 1 := by rw [div_le_one (by norm_num)]; exact hp100
      calc p / 100 * (sorted.length : ℚ)
          ≤ 1 * (sorted.length : ℚ) := mul_le_mul_of_nonneg_right h1 hcast.le
        _ = (sorted.length : ℚ) := one_mul _
    have hnumle : index.num ≤ (sorted.length : ℤ) := by
      have h2 : ((index.num : ℚ)) ≤ ((sorted.length : ℕ) : ℚ) := hi ▸ hile
      exact_mod_cast h2
    have hbound : (index.num - 1).toNat < sorted.length := by omega
    refine ⟨hbound, ?_⟩
    have hfloor : pyInt index = index.num := by
      rw [hpyInt]
      conv_lhs => rw [← hi]
      exact Int.floor_intCast _
    have hpg : pyGet sorted (index.num - 1) =
        some (sorted.get ⟨(index.num - 1).toNat, hbound⟩) := by
      unfold pyGet
      rw [if_pos (by omega : (0 : ℤ) ≤ index.num - 1), List.get?_eq_get hbound]
    rw [hperc, if_pos hden, hfloor, hpg]
  · have h0f : 0 ≤ ⌊index⌋ := Int.floor_nonneg.mpr hipos.le
    have h1 : ⌊index⌋.toNat < sorted.length := by omega
    refine ⟨h1, hub, ?_⟩
    have hlow : pyGet sorted ⌊index⌋ = some (sorted.get ⟨⌊index⌋.toNat, h1⟩) := by
      unfold pyGet
      rw [if_pos h0f, List.get?_eq_get h1]
    have htoNat : (⌊index⌋ + 1).toNat = ⌊index⌋.toNat + 1 := by omega
    have hup : pyGet sorted (⌊index⌋ + 1) =
        some (sorted.get ⟨⌊index⌋.toNat + 1, hub⟩) := by
      unfold pyGet
      rw [if_pos (by omega : (0 : ℤ) ≤ ⌊index⌋ + 1), htoNat, List.get?_eq_get hub]
    rw [hperc, if_neg hden, hpyInt, hlow, hup]
  · have h0f : 0 ≤ ⌊index⌋ := Int.floor_nonneg.mpr hipos.le
    have htoNat : (⌊index⌋ + 1).toNat = sorted.length := by omega
    have hup : pyGet sorted (⌊index⌋ + 1) = none := by
      unfold pyGet
      rw [if_pos (by omega : (0 : ℤ) ≤ ⌊index⌋ + 1), htoNat]
      exact List.get?_eq_none.mpr le_rfl
    rw [hperc, if_neg hden, hpyInt, hup]
    cases pyGet sorted ⌊index⌋ <;> rfl

/-- Witness for C7 (amended): `[1,2,3,4]` at p = 50 (whole rank 2) yields
element 2; `[1..8]` at p = 95 (rank 7.6, upper index 8 = n) yields the
IndexError absence; the empty list yields 0. -/
theorem percentile_spec_check :
    percentile [] 50 = some 0 ∧
    percentile [1, 2, 3, 4] 50 = some 2 ∧
    percentile [1, 2, 3, 4, 5, 6, 7, 8] 95 = none := by
  have hs4 : ([(1 : ℚ), 2, 3, 4] : List ℚ) =
      List.mergeSort [(1 : ℚ), 2, 3, 4] (fun a b => decide (a ≤ b)) :=
    (List.mergeSort_of_sorted (by norm_num)).symm
  have hs8 : ([(1 : ℚ), 2, 3, 4, 5, 6, 7, 8] : List ℚ) =
      List.mergeSort [(1 : ℚ), 2, 3, 4, 5, 6, 7, 8] (fun a b => decide (a ≤ b)) :=
    (List.mergeSort_of_sorted (by norm_num)).symm
  have h4 := percentile_spec [1, 2, 3, 4] [1, 2, 3, 4] 50 2 hs4
    (by norm_num) (by decide) (by norm_num) (by norm_num)
  have h8 := percentile_spec [1, 2, 3, 4, 5, 6, 7, 8] [1, 2, 3, 4, 5, 6, 7, 8]
    95 (38/5) hs8 (by norm_num) (by decide) (by norm_num) (by norm_num)
  refine ⟨h4.1, ?_, ?_⟩
  · obtain ⟨h, heq⟩ := h4.2.1 (by norm_num)
    rw [heq, ← List.get?_eq_get h]
    have ht : ((2 : ℚ).num - 1).toNat = 1 := by norm_num [Rat.num_ofNat]
    rw [ht]; decide
  · refine h8.2.2.2 (by norm_num) ?_
    have hf : ⌊(38 : ℚ) / 5⌋ = 7 := by norm_num
    rw [hf]; decide

/-- Reading back a list of YAML strings is lossless. -/
theorem strListAux_map_s (l : List String) : strListAux (l.map Yaml.s) = some l := by
  induction l with
  | nil => rfl
  | cons a t ih => simp [strListAux, yamlStr?, ih]

/-- `strList` inverts the string-list serialization. -/
theorem strList_map_s (l : List String) : strList (.arr (l.map Yaml.s)) = some l := by
  simp [strList, strListAux_map_s]

/-- C8: serializing a valid `IndicatorManifest` to YAML and loading the
file back through `load_manifest_from_file` yields a manifest equal in all
fields to the original; the loader never raises — a missing file returns
`None`, and so does an unrecognized `type` field. -/
theorem manifest_roundtrip_spec (m : IndicatorManifest) :
    load_manifest_from_file (some (indicatorManifestToYaml m)) =
      some (.indicator m) ∧
    load_manifest_from_file none = none ∧
    (∀ entries ty, yamlGet entries "type" = some (.s ty) →
      ty ≠ "indicator" → ty ≠ "trigger" → ty ≠ "news_feed" →
      load_manifest_from_file (some (.map entries)) = none) := by
  refine ⟨?_, rfl, fun entries ty hty h1 h2 h3 => ?_⟩
  · obtain ⟨name, version, description, author, impl, params, inputs, outputs, tfs⟩ := m
    cases author <;>
      simp [load_manifest_from_file, indicatorManifestToYaml,
        buildIndicatorManifest, yamlGet, reqStr, optStrField, paramsD,
        strListD, reqStrList, strList_map_s]
  · simp [load_manifest_from_file, hty, h1, h2, h3]

/-- Witness for C8: a concrete custom-RSI manifest survives the
round-trip; a missing file and a `type: widget` file load to `None`. -/
theorem manifest_roundtrip_spec_check :
    load_manifest_from_file (some (indicatorManifestToYaml
      ⟨"MyRSI", "1.0.0", "Custom RSI", some "ops", "RSI",
       [("period", Yaml.i 14)], ["close"], ["rsi"], ["M1", "M5"]⟩)) =
      some (.indicator
        ⟨"MyRSI", "1.0.0", "Custom RSI", some "ops", "RSI",
         [("period", Yaml.i 14)], ["close"], ["rsi"], ["M1", "M5"]⟩) ∧
    load_manifest_from_file none = none ∧
    load_manifest_from_file (some (.map [("type", Yaml.s "widget")])) = none :=
  ⟨(manifest_roundtrip_spec
      ⟨"MyRSI", "1.0.0", "Custom RSI", some "ops", "RSI",
       [("period", Yaml.i 14)], ["close"], ["rsi"], ["M1", "M5"]⟩).1,
   (manifest_roundtrip_spec
      ⟨"MyRSI", "1.0.0", "Custom RSI", some "ops", "RSI",
       [("period", Yaml.i 14)], ["close"], ["rsi"], ["M1", "M5"]⟩).2.1,
   (manifest_roundtrip_spec
      ⟨"MyRSI", "1.0.0", "Custom RSI", some "ops", "RSI",
       [("period", Yaml.i 14)], ["close"], ["rsi"], ["M1", "M5"]⟩).2.2
     [("type", Yaml.s "widget")] "widget" rfl
     (by decide) (by decide) (by decide)⟩

/-- A successful `load_component` leaves the component registered under
the manifest's name. -/
theorem load_component_registers (dynImport : String → Option String)
    (components : List (String × Component)) (m : ManifestInfo)
    (c : Component) (st' : List (String × Component))
    (h : load_component dynImport components m = (some c, st')) :
    lookupComponent st' m.name = some c := by
  unfold load_component at h
  cases hl : lookupComponent components m.name with
  | some c0 =>
    rw [hl] at h
    simp only [] at h
    injection h with h1 h2
    injection h1 with h1
    subst h2
    rw [hl, h1]
  | none =>
    rw [hl] at h
    simp only [] at h
    cases hcls : (if containsDot m.implementation then dynImport m.implementation
        else get_builtin_component m.implementation m.mtype) with
    | none =>
      rw [hcls] at h
      simp only [] at h
      injection h with h1 _
      exact absurd h1 (by simp)
    | some cls =>
      rw [hcls] at h
      simp only [] at h
      injection h with h1 h2
      injection h1 with h1
      subst h2
      simp [lookupComponent, h1]

/-- C9: the component registry is keyed only by manifest name — once
`load_component m1` has succeeded, a later `load_component m2` with the
same name returns the very instance built from m1's implementation and
parameters, ignoring m2's implementation and parameters. -/
theorem component_registry_name_keyed (dynImport : String → Option String)
    (components : List (String × Component)) (m1 m2 : ManifestInfo)
    (hname : m2.name = m1.name) (c : Component)
    (st' : List (String × Component))
    (h : load_component dynImport components m1 = (some c, st')) :
    load_component dynImport st' m2 = (some c, st') := by
  have hlook : lookupComponent st' m2.name = some c := by
    rw [hname]
    exact load_component_registers dynImport components m1 c st' h
  unfold load_component
  rw [hlook]

/-- Witness for C9: after loading an RSI manifest named "RSI" with
period 14, loading a same-named manifest pointing at EMA with period 50
returns the original RSI component and leaves the registry unchanged. -/
theorem component_registry_name_keyed_check :
    load_component (fun _ => none)
      [("RSI", ⟨"RSI", [("period", Yaml.i 14)]⟩)]
      ⟨"RSI", "indicator", "EMA", [("period", Yaml.i 50)]⟩ =
      (some ⟨"RSI", [("period", Yaml.i 14)]⟩,
       [("RSI", ⟨"RSI", [("period", Yaml.i 14)]⟩)]) :=
  component_registry_name_keyed (fun _ => none) []
    ⟨"RSI", "indicator", "RSI", [("period", Yaml.i 14)]⟩
    ⟨"RSI", "indicator", "EMA", [("period", Yaml.i 50)]⟩ rfl
    ⟨"RSI", [("period", Yaml.i 14)]⟩
    [("RSI", ⟨"RSI", [("period", Yaml.i 14)]⟩)] rfl

end IqBot
